import Mathlib

/-!
Shallow embedding of the clog logging library (src/clog/logger.c,
src/clog/include/logger.h) and proofs about its specification claims.

Modelling conventions:
* `FILE*` sink handles are modelled as natural-number identities; a null
  pointer is `Option.none`.
* The side-channel error indicator `errno` is an explicit `Int` threaded
  through every operation inside `CState`.
* All observable side effects (mutex allocation/release, `fopen` attempts,
  `setvbuf` reconfiguration, writes, flushes, `fclose`, mutex lock/unlock)
  are recorded as an append-only event trace in `CState`; consecutive
  `fputs`/`fprintf` calls of `emit_one` to one sink are recorded as a single
  write event holding the concatenated text.
* Environment behaviour the C library only observes is passed as parameters:
  `tty : Nat → Bool` models `isatty` per sink, `mOk : Bool` the success of
  `LOGGER_MUTEX_INIT_OK`, `FopenR` the outcome of `fopen(path, "a")`, and
  `nowStr : String` the text `now_iso8601` renders into its buffer.
-/

namespace Clog

/-- POSIX `EINVAL`, the invalid-argument errno code set by the library. -/
def EINVAL : Int := 22

/-- `LOG_DEBUG = 10` from the `LogLevel` enum in logger.h. -/
def LOG_DEBUG : Int := 10

/-- `LOG_INFO = 20` from the `LogLevel` enum in logger.h. -/
def LOG_INFO : Int := 20

/-- `LOG_WARNING = 30` from the `LogLevel` enum in logger.h. -/
def LOG_WARNING : Int := 30

/-- `LOG_ERROR = 40` from the `LogLevel` enum in logger.h. -/
def LOG_ERROR : Int := 40

/-- `LOG_CRITICAL = 50` from the `LogLevel` enum in logger.h. -/
def LOG_CRITICAL : Int := 50

/-- Observable side effects of the C code, recorded in program order. -/
inductive LogEvent where
  | mutexInit : LogEvent
  | mutexDestroy : LogEvent
  | lockEv : LogEvent
  | unlockEv : LogEvent
  | fopenTry : String → LogEvent
  | setvbufEv : Nat → LogEvent
  | writeEv : Nat → String → LogEvent
  | flushEv : Nat → LogEvent
  | fcloseEv : Nat → LogEvent
deriving DecidableEq, Repr

/-- The process state the C code mutates besides the `Logger` itself:
the errno side channel and the trace of performed side effects. -/
structure CState where
  errno : Int
  events : List LogEvent
deriving DecidableEq, Repr

/-- The `Logger` struct of logger.h (the platform mutex value itself carries
no observable data; its allocation state lives in the event trace). -/
structure Logger where
  file : Option Nat
  stream : Option Nat
  level : Int
  name : Option String
  timestamps : Bool
  colors : Bool
  owns_file : Bool
  locking : Bool
  initialized : Bool
deriving DecidableEq, Repr

/-- The all-zero `Logger` produced by `memset(lg, 0, sizeof(*lg))`. -/
def zeroLogger : Logger :=
  { file := none
    stream := none
    level := 0
    name := none
    timestamps := false
    colors := false
    owns_file := false
    locking := false
    initialized := false }

/-- Outcome of `fopen(path, "a")`: an open handle, or a failure that sets
errno to the native error code. -/
inductive FopenR where
  | ok : Nat → FopenR
  | fail : Int → FopenR
deriving DecidableEq, Repr

/-- `level_name` from logger.c: fixed names for the five levels, the
placeholder `"LVL?"` for everything else. -/
def level_name (lv : Int) : String :=
  if lv = LOG_DEBUG then "DEBUG"
  else if lv = LOG_INFO then "INFO"
  else if lv = LOG_WARNING then "WARNING"
  else if lv = LOG_ERROR then "ERROR"
  else if lv = LOG_CRITICAL then "CRITICAL"
  else "LVL?"

/-- `level_color` from logger.c: the ANSI sequence per severity. -/
def level_color (lv : Int) : String :=
  if lv = LOG_DEBUG then "\x1b[2m"
  else if lv = LOG_INFO then "\x1b[0m"
  else if lv = LOG_WARNING then "\x1b[33m"
  else if lv = LOG_ERROR then "\x1b[31m"
  else if lv = LOG_CRITICAL then "\x1b[1;41m"
  else "\x1b[0m"

/-- `is_tty` from logger.c: null streams are not TTYs, otherwise ask the
environment (`isatty`). -/
def is_tty (tty : Nat → Bool) : Option Nat → Bool
  | none => false
  | some s => tty s

/-- `%-8s`: left-justified minimum field width 8 as printf renders it. -/
def fmtLeft8 (s : String) : String :=
  if s.length < 8 then s ++ String.mk (List.replicate (8 - s.length) ' ') else s

/-- `init_common` from logger.c: null check, `memset` to zero, defaults
(`timestamps = colors = locking = true`, caller-supplied level), mutex
allocation, and only after a successful allocation `initialized = true`. -/
def init_common (lg? : Option Logger) (level : Int) (mOk : Bool)
    (st : CState) : Bool × Option Logger × CState :=
  match lg? with
  | none => (false, none, { st with errno := EINVAL })
  | some _ =>
      let lg1 := { zeroLogger with
        level := level
        timestamps := true
        colors := true
        locking := true }
      if mOk then
        (true, some { lg1 with initialized := true },
         { st with events := st.events ++ [LogEvent.mutexInit] })
      else
        (false, some lg1, st)

/-- `logger_init_stream` from logger.c. -/
def logger_init_stream (lg? : Option Logger) (stream? : Option Nat)
    (level : Int) (mOk : Bool) (tty : Nat → Bool) (st : CState) :
    Bool × Option Logger × CState :=
  match lg?, stream? with
  | none, _ => (false, none, { st with errno := EINVAL })
  | some lg, none => (false, some lg, { st with errno := EINVAL })
  | some lg, some s =>
      match init_common (some lg) level mOk st with
      | (true, some lg1, st1) =>
          let lg2 := { lg1 with stream := some s }
          if tty s then
            (true, some lg2,
             { st1 with events := st1.events ++ [LogEvent.setvbufEv s] })
          else
            (true, some lg2, st1)
      | (ok, lgr, st1) => (ok, lgr, st1)

/-- `logger_init_file` from logger.c: null checks, `init_common`, then
`fopen(path, "a")`; on open failure the mutex is destroyed and the errno
value set by `fopen` is left in place; on success the handle is bound as
the owned file sink and given a large full buffer via `setvbuf`. -/
def logger_init_file (lg? : Option Logger) (path? : Option String)
    (level : Int) (mOk : Bool) (fr : FopenR) (st : CState) :
    Bool × Option Logger × CState :=
  match lg?, path? with
  | none, _ => (false, none, { st with errno := EINVAL })
  | some lg, none => (false, some lg, { st with errno := EINVAL })
  | some lg, some path =>
      match init_common (some lg) level mOk st with
      | (true, some lg1, st1) =>
          match fr with
          | FopenR.fail e =>
              (false, some lg1,
               { st1 with
                 errno := e
                 events := st1.events ++
                   [LogEvent.fopenTry path, LogEvent.mutexDestroy] })
          | FopenR.ok fp =>
              (true, some { lg1 with file := some fp, owns_file := true },
               { st1 with events := st1.events ++
                   [LogEvent.fopenTry path, LogEvent.setvbufEv fp] })
      | (ok, lgr, st1) => (ok, lgr, st1)

/-- `logger_init_dual` from logger.c: null checks, delegate to
`logger_init_file`, then bind the borrowed stream, line-buffering it when
interactive. -/
def logger_init_dual (lg? : Option Logger) (path? : Option String)
    (stream? : Option Nat) (level : Int) (mOk : Bool) (fr : FopenR)
    (tty : Nat → Bool) (st : CState) : Bool × Option Logger × CState :=
  match lg?, path?, stream? with
  | none, _, _ => (false, none, { st with errno := EINVAL })
  | some lg, none, _ => (false, some lg, { st with errno := EINVAL })
  | some lg, some _, none => (false, some lg, { st with errno := EINVAL })
  | some lg, some path, some s =>
      match logger_init_file (some lg) (some path) level mOk fr st with
      | (true, some lg1, st1) =>
          let lg2 := { lg1 with stream := some s }
          if tty s then
            (true, some lg2,
             { st1 with events := st1.events ++ [LogEvent.setvbufEv s] })
          else
            (true, some lg2, st1)
      | (ok, lgr, st1) => (ok, lgr, st1)

/-- `logger_close` from logger.c: null is a no-op; otherwise flush the file
then the stream if present, `fclose` the file when owned, clear both sink
pointers, destroy the mutex and clear `initialized`. -/
def logger_close (lg? : Option Logger) (st : CState) :
    Option Logger × CState :=
  match lg? with
  | none => (none, st)
  | some lg =>
      let ev1 := match lg.file with
        | some f => [LogEvent.flushEv f]
        | none => []
      let ev2 := match lg.stream with
        | some s => [LogEvent.flushEv s]
        | none => []
      let ev3 := match lg.file with
        | some f => if lg.owns_file then [LogEvent.fcloseEv f] else []
        | none => []
      (some { lg with
                file := none
                stream := none
                initialized := false },
       { st with events :=
           st.events ++ ev1 ++ ev2 ++ ev3 ++ [LogEvent.mutexDestroy] })

/-- `logger_set_level` from logger.c. -/
def logger_set_level (lg? : Option Logger) (level : Int) (st : CState) :
    Option Logger × CState :=
  match lg? with
  | none => (none, { st with errno := EINVAL })
  | some lg => (some { lg with level := level }, st)

/-- `logger_set_name` from logger.c. -/
def logger_set_name (lg? : Option Logger) (name? : Option String)
    (st : CState) : Option Logger × CState :=
  match lg? with
  | none => (none, { st with errno := EINVAL })
  | some lg => (some { lg with name := name? }, st)

/-- `logger_enable_timestamps` from logger.c (the C parameter `on` is a
reserved word in Lean and is written `onFlag`). -/
def logger_enable_timestamps (lg? : Option Logger) (onFlag : Bool)
    (st : CState) : Option Logger × CState :=
  match lg? with
  | none => (none, { st with errno := EINVAL })
  | some lg => (some { lg with timestamps := onFlag }, st)

/-- `logger_enable_colors` from logger.c. -/
def logger_enable_colors (lg? : Option Logger) (onFlag : Bool)
    (st : CState) : Option Logger × CState :=
  match lg? with
  | none => (none, { st with errno := EINVAL })
  | some lg => (some { lg with colors := onFlag }, st)

/-- `logger_enable_locking` from logger.c. -/
def logger_enable_locking (lg? : Option Logger) (onFlag : Bool)
    (st : CState) : Option Logger × CState :=
  match lg? with
  | none => (none, { st with errno := EINVAL })
  | some lg => (some { lg with locking := onFlag }, st)

/-- The text one `emit_one` call writes to its sink: optional color-on
prefix, optional `"<timestamp> "` (only when the rendered timestamp is
non-empty), optional `"[<name>] "`, the level name via `"%-8s "`, the
`"<file>:<line>:<func>: "` context, the message, a newline, and the color
reset suffix when colorized. -/
def renderLine (colorize : Bool) (color : String) (timestamp : String)
    (name : Option String) (level : Int) (file : String) (line : Int)
    (func : String) (msg : String) : String :=
  (if colorize then color else "")
    ++ (if timestamp ≠ "" then timestamp ++ " " else "")
    ++ (match name with
        | some n => "[" ++ n ++ "] "
        | none => "")
    ++ fmtLeft8 (level_name level) ++ " "
    ++ file ++ ":" ++ Int.repr line ++ ":" ++ func ++ ": "
    ++ msg ++ "\n"
    ++ (if colorize then "\x1b[0m" else "")

/-- `emit_one` from logger.c: nothing on a null sink, otherwise one write
of the rendered line followed by an immediate flush of that sink. -/
def emit_one (out : Option Nat) (colorize : Bool) (color : String)
    (timestamp : String) (name : Option String) (level : Int)
    (file : String) (line : Int) (func : String) (msg : String)
    (st : CState) : CState :=
  match out with
  | none => st
  | some o =>
      { st with events := st.events ++
          [LogEvent.writeEv o
             (renderLine colorize color timestamp name level file line func msg),
           LogEvent.flushEv o] }

/-- C `vsnprintf(buf, cap, fmt, args)` restricted to format strings that
contain no conversion specifier (no percent sign): libc then copies the
format verbatim into the bounded buffer, truncated to `cap - 1` characters
because one byte is reserved for the NUL terminator. -/
def vsnprintf_nospec (cap : Nat) (fmt : String) : String :=
  String.mk (fmt.toList.take (cap - 1))

/-- `logger_vlog_impl` from logger.c: null checks set `EINVAL`; a level
below the threshold returns with the state untouched; otherwise lock when
enabled, render the timestamp when enabled, render the message from the
format (`render` stands for `vsnprintf` applied to the call's `va_list`),
emit to the stream sink (colorized only when colors are on and the stream
is a TTY) and then to the file sink (never colorized), and unlock. -/
def logger_vlog_impl (lg? : Option Logger) (level : Int) (file : String)
    (line : Int) (func : String) (fmt? : Option String)
    (render : String → String) (tty : Nat → Bool) (nowStr : String)
    (st : CState) : CState :=
  match lg?, fmt? with
  | none, _ => { st with errno := EINVAL }
  | some _, none => { st with errno := EINVAL }
  | some lg, some fmt =>
      if level < lg.level then st
      else
        let st1 := if lg.locking then
            { st with events := st.events ++ [LogEvent.lockEv] }
          else st
        let ts := if lg.timestamps then nowStr else ""
        let buf := render fmt
        let color := level_color level
        let stream_color := lg.colors && lg.stream.isSome && is_tty tty lg.stream
        let st2 := emit_one lg.stream stream_color color ts lg.name level
          file line func buf st1
        let st3 := emit_one lg.file false "" ts lg.name level
          file line func buf st2
        if lg.locking then
          { st3 with events := st3.events ++ [LogEvent.unlockEv] }
        else st3

/-- `logger_log_impl` from logger.c: its own null checks, then delegation
to `logger_vlog_impl` with the started `va_list`. -/
def logger_log_impl (lg? : Option Logger) (level : Int) (file : String)
    (line : Int) (func : String) (fmt? : Option String)
    (render : String → String) (tty : Nat → Bool) (nowStr : String)
    (st : CState) : CState :=
  match lg?, fmt? with
  | none, _ => { st with errno := EINVAL }
  | some _, none => { st with errno := EINVAL }
  | some lg, some fmt =>
      logger_vlog_impl (some lg) level file line func (some fmt)
        render tty nowStr st

/-- `logger_write` from logger.c: the pre-formatted entry point; identical
to `logger_vlog_impl` except the caller's message is used verbatim. -/
def logger_write (lg? : Option Logger) (level : Int) (file : String)
    (line : Int) (func : String) (msg? : Option String)
    (tty : Nat → Bool) (nowStr : String) (st : CState) : CState :=
  match lg?, msg? with
  | none, _ => { st with errno := EINVAL }
  | some _, none => { st with errno := EINVAL }
  | some lg, some msg =>
      if level < lg.level then st
      else
        let st1 := if lg.locking then
            { st with events := st.events ++ [LogEvent.lockEv] }
          else st
        let ts := if lg.timestamps then nowStr else ""
        let color := level_color level
        let stream_color := lg.colors && lg.stream.isSome && is_tty tty lg.stream
        let st2 := emit_one lg.stream stream_color color ts lg.name level
          file line func msg st1
        let st3 := emit_one lg.file false "" ts lg.name level
          file line func msg st2
        if lg.locking then
          { st3 with events := st3.events ++ [LogEvent.unlockEv] }
        else st3

/-- The events a call appended to the trace. -/
def newEvents (st st' : CState) : List LogEvent :=
  st'.events.drop st.events.length

/-- The call moved from `st` to `st'` wrote some text to sink `s`. -/
def wroteTo (st st' : CState) (s : Nat) : Prop :=
  ∃ t, LogEvent.writeEv s t ∈ newEvents st st'

/-- The string contains the ANSI escape introducer character `ESC`. -/
def hasEsc (s : String) : Bool := decide ('\x1b' ∈ s.data)

/-- `hasEsc` lifted over an optional C string (a null pointer prints
nothing, so it is escape-free). -/
def optHasEsc : Option String → Bool
  | none => false
  | some n => hasEsc n

/-- C3: when `fopen` fails inside `logger_init_file` (valid logger and path,
mutex allocation succeeded, open fails with native code `e`), the call
returns failure, the mutex allocated by `init_common` is destroyed before
returning (the trace gains exactly one `mutexInit` matched by one
`mutexDestroy`), and errno holds the code `e` set by the failed open, not
a value invented by the logger. -/
theorem init_file_open_failure_releases_mutex (lg : Logger) (path : String)
    (level e : Int) (st : CState) :
    logger_init_file (some lg) (some path) level true (FopenR.fail e) st =
      (false,
       some { zeroLogger with
                level := level
                timestamps := true
                colors := true
                locking := true
                initialized := true },
       { st with
          errno := e
          events := st.events ++
            [LogEvent.mutexInit, LogEvent.fopenTry path,
             LogEvent.mutexDestroy] }) := by
  simp [logger_init_file, init_common]

/-- C4 (code bug): at the concrete failing input — a valid logger target and
path, mutex allocation succeeding, `fopen` failing with `ENOENT` (2) — the
file initializer returns failure and yet leaves the logger's `initialized`
flag `true`: `init_common` set it before the open was attempted and the
failure path destroys the mutex without clearing it. -/
theorem init_file_failure_leaves_flag_set :
    (logger_init_file (some zeroLogger)
        (some "this/path/definitely/does/not/exist/app.log")
        LOG_INFO true (FopenR.fail 2) ⟨0, []⟩).1 = false ∧
    ((logger_init_file (some zeroLogger)
        (some "this/path/definitely/does/not/exist/app.log")
        LOG_INFO true (FopenR.fail 2) ⟨0, []⟩).2.1.map Logger.initialized)
      = some true :=
  ⟨rfl, rfl⟩

/-- C5: shutdown is idempotent and null-tolerant: closing a null logger is
a no-op that leaves the whole state (errno included) unchanged; after the
first close both sink references are `none` and `initialized` is `false`;
a second close on the same logger is safe, leaves both sinks `none`, and
does not alter the error indicator. -/
theorem close_idempotent_null_tolerant (lg : Logger) (st : CState) :
    logger_close none st = (none, st) ∧
    ∃ lg1 st1, logger_close (some lg) st = (some lg1, st1) ∧
      lg1.file = none ∧ lg1.stream = none ∧ lg1.initialized = false ∧
      ∃ lg2 st2, logger_close (some lg1) st1 = (some lg2, st2) ∧
        lg2.file = none ∧ lg2.stream = none ∧ st2.errno = st1.errno :=
  ⟨rfl, _, _, rfl, rfl, rfl, rfl, _, _, rfl, rfl, rfl, rfl⟩

/-- C6: every initializer called with a required null argument returns
failure, sets errno to `EINVAL`, performs no resource action (the event
trace is unchanged: no file opened, no mutex allocated, no stream
reconfigured via `setvbuf`), and leaves the target logger untouched. -/
theorem init_null_argument_rejection (lg : Logger) (path : String)
    (stream? : Option Nat) (path? : Option String) (level : Int) (mOk : Bool)
    (fr : FopenR) (tty : Nat → Bool) (st : CState) :
    logger_init_stream none stream? level mOk tty st
      = (false, none, { st with errno := EINVAL }) ∧
    logger_init_stream (some lg) none level mOk tty st
      = (false, some lg, { st with errno := EINVAL }) ∧
    logger_init_file none path? level mOk fr st
      = (false, none, { st with errno := EINVAL }) ∧
    logger_init_file (some lg) none level mOk fr st
      = (false, some lg, { st with errno := EINVAL }) ∧
    logger_init_dual none path? stream? level mOk fr tty st
      = (false, none, { st with errno := EINVAL }) ∧
    logger_init_dual (some lg) none stream? level mOk fr tty st
      = (false, some lg, { st with errno := EINVAL }) ∧
    logger_init_dual (some lg) (some path) none level mOk fr tty st
      = (false, some lg, { st with errno := EINVAL }) := by
  refine ⟨?_, rfl, ?_, rfl, ?_, ?_, rfl⟩ <;> cases stream? <;> cases path? <;> rfl

/-- Mutex lock events of one emission call, present only when locking is
enabled. -/
def lockEvts (lg : Logger) : List LogEvent :=
  if lg.locking then [LogEvent.lockEv] else []

/-- Mutex unlock events of one emission call. -/
def unlockEvts (lg : Logger) : List LogEvent :=
  if lg.locking then [LogEvent.unlockEv] else []

/-- The events one `emit_one` call contributes: nothing for a null sink,
otherwise a write of the rendered line and a flush. -/
def sinkEvts (o : Option Nat) (colorize : Bool) (color ts : String)
    (name : Option String) (level : Int) (file : String) (line : Int)
    (func : String) (msg : String) : List LogEvent :=
  match o with
  | none => []
  | some s =>
      [LogEvent.writeEv s
         (renderLine colorize color ts name level file line func msg),
       LogEvent.flushEv s]

/-- All events an unfiltered emission call appends: lock, stream sink
(colorized iff colors are on and the stream is a TTY), file sink (never
colorized), unlock. -/
def emitEvts (lg : Logger) (level : Int) (file : String) (line : Int)
    (func : String) (msg : String) (tty : Nat → Bool) (nowStr : String) :
    List LogEvent :=
  lockEvts lg
    ++ sinkEvts lg.stream (lg.colors && lg.stream.isSome && is_tty tty lg.stream)
        (level_color level) (if lg.timestamps then nowStr else "")
        lg.name level file line func msg
    ++ sinkEvts lg.file false "" (if lg.timestamps then nowStr else "")
        lg.name level file line func msg
    ++ unlockEvts lg

/-- An unfiltered `logger_write` call appends exactly `emitEvts` and
changes nothing else. -/
theorem logger_write_eq (lg : Logger) (level : Int) (file : String)
    (line : Int) (func : String) (msg : String) (tty : Nat → Bool)
    (nowStr : String) (st : CState) (h : ¬ level < lg.level) :
    logger_write (some lg) level file line func (some msg) tty nowStr st =
      { st with events :=
          st.events ++ emitEvts lg level file line func msg tty nowStr } := by
  cases hl : lg.locking <;> cases hs : lg.stream <;> cases hf : lg.file <;>
    simp [logger_write, emit_one, emitEvts, sinkEvts, lockEvts, unlockEvts,
      h, hl, hs, hf, List.append_assoc]

/-- An unfiltered `logger_vlog_impl` call appends exactly `emitEvts` for
the rendered message and changes nothing else. -/
theorem logger_vlog_eq (lg : Logger) (level : Int) (file : String)
    (line : Int) (func : String) (fmt : String) (render : String → String)
    (tty : Nat → Bool) (nowStr : String) (st : CState)
    (h : ¬ level < lg.level) :
    logger_vlog_impl (some lg) level file line func (some fmt) render tty
        nowStr st =
      { st with events := st.events ++
          emitEvts lg level file line func (render fmt) tty nowStr } := by
  cases hl : lg.locking <;> cases hs : lg.stream <;> cases hf : lg.file <;>
    simp [logger_vlog_impl, emit_one, emitEvts, sinkEvts, lockEvts,
      unlockEvts, h, hl, hs, hf, List.append_assoc]

/-- Appending events and dropping the old prefix recovers the new events. -/
theorem newEvents_append (st : CState) (l : List LogEvent) :
    newEvents st { st with events := st.events ++ l } = l := by
  simp [newEvents]

/-- An emission that reaches the fan-out writes to every bound sink. -/
theorem wroteTo_append_emit (st : CState) (lg : Logger) (level : Int)
    (file : String) (line : Int) (func : String) (msg : String)
    (tty : Nat → Bool) (nowStr : String) (s : Nat)
    (hs : lg.stream = some s ∨ lg.file = some s) :
    wroteTo st
      { st with events :=
          st.events ++ emitEvts lg level file line func msg tty nowStr } s := by
  unfold wroteTo
  rw [newEvents_append]
  rcases hs with hs | hs
  · refine ⟨renderLine (lg.colors && lg.stream.isSome && is_tty tty lg.stream)
      (level_color level) (if lg.timestamps then nowStr else "")
      lg.name level file line func msg, ?_⟩
    simp [emitEvts, sinkEvts, hs]
  · refine ⟨renderLine false "" (if lg.timestamps then nowStr else "")
      lg.name level file line func msg, ?_⟩
    simp [emitEvts, sinkEvts, hs]

/-- C1: for every logger with minimum level `T` and every emission call
(variadic or pre-formatted) at severity `S` with non-null logger and
message: when `S < T` the call returns immediately with the whole state —
errno included — unchanged and nothing written; when `S ≥ T` output is
written to each bound sink by both entry points. -/
theorem level_filter_gates_emission (lg : Logger) (level : Int)
    (file : String) (line : Int) (func : String) (fmt msg : String)
    (render : String → String) (tty : Nat → Bool) (nowStr : String)
    (st : CState) :
    (level < lg.level →
      logger_vlog_impl (some lg) level file line func (some fmt) render tty
          nowStr st = st ∧
      logger_write (some lg) level file line func (some msg) tty nowStr st
          = st) ∧
    (lg.level ≤ level →
      ∀ s : Nat, lg.stream = some s ∨ lg.file = some s →
        wroteTo st (logger_vlog_impl (some lg) level file line func
          (some fmt) render tty nowStr st) s ∧
        wroteTo st (logger_write (some lg) level file line func (some msg)
          tty nowStr st) s) := by
  constructor
  · intro h
    constructor <;> simp [logger_vlog_impl, logger_write, h]
  · intro h s hs
    have h' : ¬ level < lg.level := not_lt.mpr h
    rw [logger_vlog_eq lg level file line func fmt render tty nowStr st h',
        logger_write_eq lg level file line func msg tty nowStr st h']
    exact ⟨wroteTo_append_emit st lg level file line func (render fmt) tty
        nowStr s hs,
      wroteTo_append_emit st lg level file line func msg tty nowStr s hs⟩

/-- A dual-sink logger at threshold `INFO`: owned file sink 2, borrowed
stream sink 1, all toggles on, used as a concrete test fixture. -/
def lgW : Logger :=
  { zeroLogger with
    stream := some 1
    file := some 2
    level := 20
    timestamps := true
    colors := true
    locking := true
    owns_file := true
    initialized := true }

/-- Concrete TTY environment: only sink 1 is an interactive terminal. -/
def ttyW : Nat → Bool := fun s => s == 1

/-- A clean starting state: errno 0, empty trace. -/
def stW : CState := { errno := 0, events := [] }

/-- C1 witness: at the concrete fixture, DEBUG (10) is below the INFO (20)
threshold and leaves the state untouched on both entry points, while
ERROR (40) writes to the bound stream sink on both entry points. -/
theorem level_filter_gates_emission_witness :
    (logger_vlog_impl (some lgW) LOG_DEBUG "app.c" 3 "main" (some "boot")
        (vsnprintf_nospec 2048) ttyW "2025-09-03T21:07:15Z" stW = stW ∧
     logger_write (some lgW) LOG_DEBUG "app.c" 3 "main" (some "boot")
        ttyW "2025-09-03T21:07:15Z" stW = stW) ∧
    (wroteTo stW (logger_vlog_impl (some lgW) LOG_ERROR "app.c" 3 "main"
        (some "boot") (vsnprintf_nospec 2048) ttyW "2025-09-03T21:07:15Z"
        stW) 1 ∧
     wroteTo stW (logger_write (some lgW) LOG_ERROR "app.c" 3 "main"
        (some "boot") ttyW "2025-09-03T21:07:15Z" stW) 1) := by
  constructor
  · exact (level_filter_gates_emission lgW LOG_DEBUG "app.c" 3 "main"
      "boot" "boot" (vsnprintf_nospec 2048) ttyW "2025-09-03T21:07:15Z"
      stW).1 (by decide)
  · exact (level_filter_gates_emission lgW LOG_ERROR "app.c" 3 "main"
      "boot" "boot" (vsnprintf_nospec 2048) ttyW "2025-09-03T21:07:15Z"
      stW).2 (by decide) 1 (Or.inl rfl)

/-- C10: a logger whose two sinks are both absent (for example one that
has been closed) is tolerated by both emission entry points at any
severity passing the filter: errno is untouched and no write event is
produced for any sink. -/
theorem no_sink_emission_safe (lg : Logger) (level : Int) (file : String)
    (line : Int) (func : String) (fmt msg : String)
    (render : String → String) (tty : Nat → Bool) (nowStr : String)
    (st : CState) (hf : lg.file = none) (hs : lg.stream = none)
    (hlev : lg.level ≤ level) :
    (logger_vlog_impl (some lg) level file line func (some fmt) render tty
        nowStr st).errno = st.errno ∧
    (logger_write (some lg) level file line func (some msg) tty nowStr
        st).errno = st.errno ∧
    (∀ s t, LogEvent.writeEv s t ∉
        newEvents st (logger_vlog_impl (some lg) level file line func
          (some fmt) render tty nowStr st)) ∧
    (∀ s t, LogEvent.writeEv s t ∉
        newEvents st (logger_write (some lg) level file line func
          (some msg) tty nowStr st)) := by
  have h' : ¬ level < lg.level := not_lt.mpr hlev
  rw [logger_vlog_eq lg level file line func fmt render tty nowStr st h',
      logger_write_eq lg level file line func msg tty nowStr st h']
  refine ⟨rfl, rfl, ?_, ?_⟩ <;>
    · intro s t
      rw [newEvents_append]
      cases hl : lg.locking <;>
        simp [emitEvts, sinkEvts, lockEvts, unlockEvts, hf, hs, hl]

/-- C10 witness: the all-zero logger (no sinks, threshold 0) at INFO:
errno survives and no write event appears on either entry point. -/
theorem no_sink_emission_safe_witness :
    (logger_vlog_impl (some zeroLogger) LOG_INFO "app.c" 3 "main"
        (some "m") (vsnprintf_nospec 2048) ttyW "" stW).errno = stW.errno ∧
    (logger_write (some zeroLogger) LOG_INFO "app.c" 3 "main" (some "m")
        ttyW "" stW).errno = stW.errno ∧
    (∀ s t, LogEvent.writeEv s t ∉
        newEvents stW (logger_vlog_impl (some zeroLogger) LOG_INFO "app.c"
          3 "main" (some "m") (vsnprintf_nospec 2048) ttyW "" stW)) ∧
    (∀ s t, LogEvent.writeEv s t ∉
        newEvents stW (logger_write (some zeroLogger) LOG_INFO "app.c" 3
          "main" (some "m") ttyW "" stW)) :=
  no_sink_emission_safe zeroLogger LOG_INFO "app.c" 3 "main" "m" "m"
    (vsnprintf_nospec 2048) ttyW "" stW rfl rfl (by decide)

/-- C7: every configuration setter called on a null logger sets `EINVAL`
and mutates nothing; called on a valid logger it stores the supplied value
into exactly its one target field and leaves the rest of the logger and
the whole state — a pre-set sentinel errno value included — untouched. -/
theorem setter_contract (lg : Logger) (level : Int) (name? : Option String)
    (b : Bool) (st : CState) :
    logger_set_level none level st = (none, { st with errno := EINVAL }) ∧
    logger_set_level (some lg) level st = (some { lg with level := level }, st) ∧
    logger_set_name none name? st = (none, { st with errno := EINVAL }) ∧
    logger_set_name (some lg) name? st = (some { lg with name := name? }, st) ∧
    logger_enable_timestamps none b st = (none, { st with errno := EINVAL }) ∧
    logger_enable_timestamps (some lg) b st
      = (some { lg with timestamps := b }, st) ∧
    logger_enable_colors none b st = (none, { st with errno := EINVAL }) ∧
    logger_enable_colors (some lg) b st = (some { lg with colors := b }, st) ∧
    logger_enable_locking none b st = (none, { st with errno := EINVAL }) ∧
    logger_enable_locking (some lg) b st = (some { lg with locking := b }, st) :=
  ⟨rfl, rfl, rfl, rfl, rfl, rfl, rfl, rfl, rfl, rfl⟩

/-- `hasEsc` distributes over string concatenation. -/
theorem hasEsc_append (a b : String) :
    hasEsc (a ++ b) = (hasEsc a || hasEsc b) := by
  simp [hasEsc]

/-- Above 15 `Nat.digitChar` yields its fallback character. -/
theorem digitChar_eq_star (n : Nat) (h : 15 < n) : Nat.digitChar n = '*' := by
  have h0 : n ≠ 0 := by omega
  have h1 : n ≠ 1 := by omega
  have h2 : n ≠ 2 := by omega
  have h3 : n ≠ 3 := by omega
  have h4 : n ≠ 4 := by omega
  have h5 : n ≠ 5 := by omega
  have h6 : n ≠ 6 := by omega
  have h7 : n ≠ 7 := by omega
  have h8 : n ≠ 8 := by omega
  have h9 : n ≠ 9 := by omega
  have ha : n ≠ 10 := by omega
  have hb : n ≠ 11 := by omega
  have hc : n ≠ 12 := by omega
  have hd : n ≠ 13 := by omega
  have he : n ≠ 14 := by omega
  have hf : n ≠ 15 := by omega
  simp [Nat.digitChar, h0, h1, h2, h3, h4, h5, h6, h7, h8, h9, ha, hb,
    hc, hd, he, hf]

/-- No digit character is the ANSI escape character. -/
theorem esc_ne_digitChar (n : Nat) : Nat.digitChar n ≠ '\x1b' := by
  by_cases h : n ≤ 15
  · interval_cases n <;> decide
  · rw [digitChar_eq_star n (by omega)]
    decide

/-- Decimal digit accumulation never introduces the escape character. -/
theorem esc_not_mem_toDigitsCore (b f n : Nat) (acc : List Char)
    (hacc : '\x1b' ∉ acc) : '\x1b' ∉ Nat.toDigitsCore b f n acc := by
  induction f generalizing n acc with
  | zero => simpa [Nat.toDigitsCore] using hacc
  | succ f ih =>
      simp only [Nat.toDigitsCore]
      split
      · intro h
        rcases List.mem_cons.mp h with h | h
        · exact esc_ne_digitChar _ h.symm
        · exact hacc h
      · refine ih _ _ ?_
        intro h
        rcases List.mem_cons.mp h with h | h
        · exact esc_ne_digitChar _ h.symm
        · exact hacc h

/-- The decimal rendering of a natural number is escape-free. -/
theorem hasEsc_natRepr (n : Nat) : hasEsc (Nat.repr n) = false := by
  have h := esc_not_mem_toDigitsCore 10 (n + 1) n [] (by simp)
  simp only [hasEsc, Nat.repr, Nat.toDigits, List.asString]
  exact decide_eq_false h

/-- The decimal rendering of an integer (the `%d` of the context field) is
escape-free. -/
theorem hasEsc_intRepr (i : Int) : hasEsc (Int.repr i) = false := by
  cases i with
  | ofNat n => simpa [Int.repr] using hasEsc_natRepr n
  | negSucc n =>
      rw [Int.repr, hasEsc_append, hasEsc_natRepr]
      decide

/-- Every level name, the `"LVL?"` placeholder included, is escape-free. -/
theorem hasEsc_level_name (lv : Int) : hasEsc (level_name lv) = false := by
  unfold level_name
  by_cases h1 : lv = LOG_DEBUG
  · rw [if_pos h1]; decide
  rw [if_neg h1]
  by_cases h2 : lv = LOG_INFO
  · rw [if_pos h2]; decide
  rw [if_neg h2]
  by_cases h3 : lv = LOG_WARNING
  · rw [if_pos h3]; decide
  rw [if_neg h3]
  by_cases h4 : lv = LOG_ERROR
  · rw [if_pos h4]; decide
  rw [if_neg h4]
  by_cases h5 : lv = LOG_CRITICAL
  · rw [if_pos h5]; decide
  rw [if_neg h5]
  decide

/-- Padding spaces are escape-free. -/
theorem hasEsc_replicate_space (k : Nat) :
    hasEsc (String.mk (List.replicate k ' ')) = false := by
  refine decide_eq_false ?_
  intro h
  have h2 := List.eq_of_mem_replicate
    (show '\x1b' ∈ List.replicate k ' ' from h)
  exact absurd h2 (by decide)

/-- Left-justified padding preserves escape-freeness. -/
theorem hasEsc_fmtLeft8 (s : String) : hasEsc (fmtLeft8 s) = hasEsc s := by
  unfold fmtLeft8
  split
  · rw [hasEsc_append, hasEsc_replicate_space, Bool.or_false]
  · rfl

/-- The empty string is escape-free. -/
theorem hasEsc_empty : hasEsc "" = false := by decide

/-- The universal ANSI reset suffix contains the escape character. -/
theorem hasEsc_reset : hasEsc "\x1b[0m" = true := by decide

/-- A rendered line contains an ANSI escape exactly when it was colorized,
provided the caller-controlled components are themselves escape-free: a
colorized line carries at least the reset suffix, an uncolorized one is
built purely from escape-free pieces. -/
theorem hasEsc_renderLine (colorize : Bool) (color ts : String)
    (name : Option String) (lv : Int) (file : String) (line : Int)
    (func : String) (msg : String)
    (h1 : hasEsc ts = false) (h2 : optHasEsc name = false)
    (h3 : hasEsc file = false) (h4 : hasEsc func = false)
    (h5 : hasEsc msg = false) :
    hasEsc (renderLine colorize color ts name lv file line func msg)
      = colorize := by
  unfold renderLine
  cases name with
  | none =>
      cases colorize <;> by_cases hts : ts = "" <;>
        simp [hts, hasEsc_append, hasEsc_fmtLeft8, hasEsc_level_name,
          hasEsc_intRepr, h1, h3, h4, h5, hasEsc_empty, hasEsc_reset,
          show hasEsc " " = false from by decide,
          show hasEsc "\n" = false from by decide,
          show hasEsc ":" = false from by decide,
          show hasEsc ": " = false from by decide]
  | some n =>
      have h2' : hasEsc n = false := h2
      cases colorize <;> by_cases hts : ts = "" <;>
        simp [hts, hasEsc_append, hasEsc_fmtLeft8, hasEsc_level_name,
          hasEsc_intRepr, h1, h2', h3, h4, h5, hasEsc_empty, hasEsc_reset,
          show hasEsc " " = false from by decide,
          show hasEsc "\n" = false from by decide,
          show hasEsc ":" = false from by decide,
          show hasEsc ": " = false from by decide,
          show hasEsc "[" = false from by decide,
          show hasEsc "] " = false from by decide]

/-- C2: for every emission call that passes the level filter on a dual-sink
logger (with escape-free caller-controlled inputs): the stream (secondary)
sink is written before the file (primary) sink; the stream sink's line
contains an ANSI escape iff colors are enabled and that stream is an
interactive terminal; and the file sink's line never contains an ANSI
escape, regardless of the colors toggle — for both entry points. -/
theorem colorization_policy (lg : Logger) (s f : Nat) (level : Int)
    (file : String) (line : Int) (func : String) (fmt msg : String)
    (render : String → String) (tty : Nat → Bool) (nowStr : String)
    (st : CState)
    (hs : lg.stream = some s) (hf : lg.file = some f)
    (hlev : lg.level ≤ level)
    (h1 : hasEsc nowStr = false) (h2 : optHasEsc lg.name = false)
    (h3 : hasEsc file = false) (h4 : hasEsc func = false)
    (h5 : hasEsc msg = false) (h6 : hasEsc (render fmt) = false) :
    (∃ A B : String,
      logger_write (some lg) level file line func (some msg) tty nowStr st =
        { st with events := st.events ++ lockEvts lg ++
            [LogEvent.writeEv s A, LogEvent.flushEv s,
             LogEvent.writeEv f B, LogEvent.flushEv f] ++ unlockEvts lg } ∧
      hasEsc A = (lg.colors && tty s) ∧ hasEsc B = false) ∧
    (∃ A B : String,
      logger_vlog_impl (some lg) level file line func (some fmt) render tty
          nowStr st =
        { st with events := st.events ++ lockEvts lg ++
            [LogEvent.writeEv s A, LogEvent.flushEv s,
             LogEvent.writeEv f B, LogEvent.flushEv f] ++ unlockEvts lg } ∧
      hasEsc A = (lg.colors && tty s) ∧ hasEsc B = false) := by
  have h' : ¬ level < lg.level := not_lt.mpr hlev
  have hts : hasEsc (if lg.timestamps then nowStr else "") = false := by
    cases lg.timestamps <;> simp [h1, hasEsc_empty]
  constructor
  · refine ⟨renderLine (lg.colors && tty s) (level_color level)
        (if lg.timestamps then nowStr else "") lg.name level file line func
        msg,
      renderLine false "" (if lg.timestamps then nowStr else "") lg.name
        level file line func msg, ?_, ?_, ?_⟩
    · rw [logger_write_eq lg level file line func msg tty nowStr st h']
      simp [emitEvts, sinkEvts, is_tty, hs, hf, List.append_assoc]
    · exact hasEsc_renderLine _ _ _ _ _ _ _ _ _ hts h2 h3 h4 h5
    · exact hasEsc_renderLine _ _ _ _ _ _ _ _ _ hts h2 h3 h4 h5
  · refine ⟨renderLine (lg.colors && tty s) (level_color level)
        (if lg.timestamps then nowStr else "") lg.name level file line func
        (render fmt),
      renderLine false "" (if lg.timestamps then nowStr else "") lg.name
        level file line func (render fmt), ?_, ?_, ?_⟩
    · rw [logger_vlog_eq lg level file line func fmt render tty nowStr st h']
      simp [emitEvts, sinkEvts, is_tty, hs, hf, List.append_assoc]
    · exact hasEsc_renderLine _ _ _ _ _ _ _ _ _ hts h2 h3 h4 h6
    · exact hasEsc_renderLine _ _ _ _ _ _ _ _ _ hts h2 h3 h4 h6

/-- C2 witness: at the concrete dual-sink fixture (stream sink 1 is a TTY,
file sink 2 is not) an ERROR emission orders the stream write before the
file write, colorizes the stream line and keeps the file line escape-free,
on both entry points. -/
theorem colorization_policy_witness :
    (∃ A B : String,
      logger_write (some lgW) LOG_ERROR "app.c" 3 "main" (some "ok") ttyW
          "2025-09-03T21:07:15Z" stW =
        { stW with events := stW.events ++ lockEvts lgW ++
            [LogEvent.writeEv 1 A, LogEvent.flushEv 1,
             LogEvent.writeEv 2 B, LogEvent.flushEv 2] ++ unlockEvts lgW } ∧
      hasEsc A = (lgW.colors && ttyW 1) ∧ hasEsc B = false) ∧
    (∃ A B : String,
      logger_vlog_impl (some lgW) LOG_ERROR "app.c" 3 "main" (some "ok")
          (vsnprintf_nospec 2048) ttyW "2025-09-03T21:07:15Z" stW =
        { stW with events := stW.events ++ lockEvts lgW ++
            [LogEvent.writeEv 1 A, LogEvent.flushEv 1,
             LogEvent.writeEv 2 B, LogEvent.flushEv 2] ++ unlockEvts lgW } ∧
      hasEsc A = (lgW.colors && ttyW 1) ∧ hasEsc B = false) :=
  colorization_policy lgW 1 2 LOG_ERROR "app.c" 3 "main" "ok" "ok"
    (vsnprintf_nospec 2048) ttyW "2025-09-03T21:07:15Z" stW rfl rfl
    (by decide) (by decide) rfl (by decide) (by decide) (by decide)
    (by decide)

/-- A message of 2048 characters: one more than the 2047 the variadic
path's formatting buffer can carry beside its NUL terminator. -/
def msg2048 : String := String.mk (List.replicate 2048 'a')

/-- A minimal stream-only logger (threshold 0, all toggles off). -/
def lgC8 : Logger := { zeroLogger with stream := some 1 }

/-- The length of a string built from an explicit character list. -/
theorem string_length_mk (l : List Char) :
    (String.mk l).length = l.length := rfl

/-- The length of a string of `k` copies of one character. -/
theorem length_mk_replicate (k : Nat) (c : Char) :
    (String.mk (List.replicate k c)).length = k := by
  show (List.replicate k c).length = k
  exact List.length_replicate k c

/-- The length of an uncolorized rendered line without timestamp and name
is a fixed overhead plus the message length. -/
theorem renderLine_length_plain (color : String) (lv : Int) (file : String)
    (line : Int) (func : String) (m : String) :
    (renderLine false color "" none lv file line func m).length =
      (fmtLeft8 (level_name lv)).length + 1 + file.length + 1 +
        (Int.repr line).length + 1 + func.length + 2 + m.length + 1 := by
  simp [renderLine, String.length_append,
    show (" " : String).length = 1 from rfl,
    show (":" : String).length = 1 from rfl,
    show (": " : String).length = 2 from rfl,
    show ("\n" : String).length = 1 from rfl,
    show ("" : String).length = 0 from rfl]

/-- C8 counterexample: a 2048-character message with no conversion
specifier refutes the claim as stated — the variadic path truncates it to
the 2047 characters its bounded buffer can hold, while the pre-formatted
path writes it verbatim, so the two entry points produce different sink
output for the same string. -/
theorem variadic_truncation_cex :
    logger_log_impl (some lgC8) LOG_INFO "app.c" 3 "main" (some msg2048)
        (vsnprintf_nospec 2048) ttyW "" stW ≠
      logger_write (some lgC8) LOG_INFO "app.c" 3 "main" (some msg2048)
        ttyW "" stW := by
  intro h
  have h1 : logger_log_impl (some lgC8) LOG_INFO "app.c" 3 "main"
      (some msg2048) (vsnprintf_nospec 2048) ttyW "" stW =
      logger_vlog_impl (some lgC8) LOG_INFO "app.c" 3 "main" (some msg2048)
        (vsnprintf_nospec 2048) ttyW "" stW := rfl
  rw [h1, logger_vlog_eq lgC8 LOG_INFO "app.c" 3 "main" msg2048
        (vsnprintf_nospec 2048) ttyW "" stW (by decide),
      logger_write_eq lgC8 LOG_INFO "app.c" 3 "main" msg2048 ttyW "" stW
        (by decide)] at h
  have he := congrArg CState.events h
  simp only [emitEvts, sinkEvts, lockEvts, unlockEvts, lgC8, zeroLogger]
    at he
  simp at he
  have hlen := congrArg String.length he
  rw [renderLine_length_plain, renderLine_length_plain] at hlen
  have hm : msg2048.length = 2048 := by
    show (String.mk (List.replicate 2048 'a')).length = 2048
    rw [string_length_mk, List.length_replicate]
  have hv : (vsnprintf_nospec 2048 msg2048).length = 2047 := by
    show (String.mk
      ((String.mk (List.replicate 2048 'a')).toList.take 2047)).length
        = 2047
    rw [string_length_mk,
        show (String.mk (List.replicate 2048 'a')).toList
          = List.replicate 2048 'a' from rfl,
        List.length_take, List.length_replicate]
    decide
  omega

/-- C8 (amended): the two entry points implement the same emission
algorithm for every message string with no conversion specifier that fits
the variadic path's 2048-byte formatting buffer (at most 2047 characters):
the variadic path called with that string as format template produces
exactly the same state — sink output and errno effect — as the
pre-formatted path called with it as message. -/
theorem entry_points_agree (lg? : Option Logger) (level : Int)
    (file : String) (line : Int) (func : String) (m : String)
    (tty : Nat → Bool) (nowStr : String) (st : CState)
    (hspec : m.toList.contains '%' = false) (hlen : m.length ≤ 2047) :
    logger_log_impl lg? level file line func (some m)
        (vsnprintf_nospec 2048) tty nowStr st =
      logger_write lg? level file line func (some m) tty nowStr st := by
  have hren : vsnprintf_nospec 2048 m = m := by
    have h2 : m.toList.length ≤ 2047 := hlen
    unfold vsnprintf_nospec
    rw [List.take_of_length_le h2]
    cases m
    rfl
  cases lg? with
  | none => rfl
  | some lg =>
      have key : logger_vlog_impl (some lg) level file line func (some m)
          (vsnprintf_nospec 2048) tty nowStr st =
          logger_write (some lg) level file line func (some m) tty nowStr
            st := by
        by_cases hl : level < lg.level
        · simp [logger_vlog_impl, logger_write, hl]
        · rw [logger_vlog_eq lg level file line func m
                (vsnprintf_nospec 2048) tty nowStr st hl,
              logger_write_eq lg level file line func m tty nowStr st hl,
              hren]
      exact key

/-- C8 witness: for the short specifier-free message "hello" on the
dual-sink fixture, the two entry points produce identical states. -/
theorem entry_points_agree_witness :
    logger_log_impl (some lgW) LOG_ERROR "app.c" 3 "main" (some "hello")
        (vsnprintf_nospec 2048) ttyW "2025-09-03T21:07:15Z" stW =
      logger_write (some lgW) LOG_ERROR "app.c" 3 "main" (some "hello")
        ttyW "2025-09-03T21:07:15Z" stW :=
  entry_points_agree (some lgW) LOG_ERROR "app.c" 3 "main" "hello" ttyW
    "2025-09-03T21:07:15Z" stW (by decide) (by decide)

/-- C9: the severity level renders as its fixed name (`DEBUG`, `INFO`,
`WARNING`, `ERROR`, `CRITICAL`), any unrecognized numeric level renders as
the placeholder token `"LVL?"`; the level field is left-justified with
minimum width 8 (the name followed by padding spaces, total length
`max 8` the name's length); and emission at an unrecognized level still
writes to the bound sink instead of failing. -/
theorem level_field_rendering :
    (level_name LOG_DEBUG = "DEBUG" ∧ level_name LOG_INFO = "INFO" ∧
     level_name LOG_WARNING = "WARNING" ∧ level_name LOG_ERROR = "ERROR" ∧
     level_name LOG_CRITICAL = "CRITICAL") ∧
    (∀ lv : Int,
      lv ∉ ([LOG_DEBUG, LOG_INFO, LOG_WARNING, LOG_ERROR, LOG_CRITICAL] :
        List Int) → level_name lv = "LVL?") ∧
    (∀ t : String, (fmtLeft8 t).length = max 8 t.length ∧
      ∃ k, fmtLeft8 t = t ++ String.mk (List.replicate k ' ')) ∧
    (∀ (lv : Int) (lg : Logger) (s : Nat) (file : String) (line : Int)
       (func : String) (msg : String) (tty : Nat → Bool) (nowStr : String)
       (st : CState), lg.stream = some s → lg.level ≤ lv →
      wroteTo st (logger_write (some lg) lv file line func (some msg) tty
        nowStr st) s) := by
  refine ⟨⟨by decide, by decide, by decide, by decide, by decide⟩,
    ?_, ?_, ?_⟩
  · intro lv hlv
    simp only [List.mem_cons, List.mem_singleton, not_or] at hlv
    obtain ⟨n1, n2, n3, n4, n5⟩ := hlv
    unfold level_name
    rw [if_neg n1, if_neg n2, if_neg n3, if_neg n4,
        if_neg (by simpa using n5)]
  · intro t
    constructor
    · by_cases h : t.length < 8
      · unfold fmtLeft8
        rw [if_pos h, String.length_append, length_mk_replicate,
            max_eq_left (Nat.le_of_lt h)]
        omega
      · unfold fmtLeft8
        rw [if_neg h, max_eq_right (Nat.le_of_not_lt h)]
    · by_cases h : t.length < 8
      · unfold fmtLeft8
        rw [if_pos h]
        exact ⟨8 - t.length, rfl⟩
      · unfold fmtLeft8
        rw [if_neg h]
        exact ⟨0, (String.append_empty t).symm⟩
  · intro lv lg s file line func msg tty nowStr st hs hlev
    rw [logger_write_eq lg lv file line func msg tty nowStr st
      (not_lt.mpr hlev)]
    exact wroteTo_append_emit st lg lv file line func msg tty nowStr s
      (Or.inl hs)

/-- C9 witness: the unrecognized level 99 renders as the placeholder and
an emission at level 99 on the dual-sink fixture still writes to the
stream sink. -/
theorem level_field_rendering_witness :
    level_name 99 = "LVL?" ∧
    wroteTo stW (logger_write (some lgW) 99 "app.c" 3 "main" (some "m")
      ttyW "" stW) 1 :=
  ⟨level_field_rendering.2.1 99 (by decide),
   level_field_rendering.2.2.2 99 lgW 1 "app.c" 3 "main" "m" ttyW "" stW
     rfl (by decide)⟩

end Clog
